import Mathlib

/-!
Verification of the paymob-capture request handler (appwrite-paymob-capture).

The repository contains several revisions of one Appwrite function that
captures a previously authorized Paymob payment.  This file gives a shallow
embedding of the revisions the claims refer to:

* the strict revision of `src/main.js` (rate limiter, input sanitization,
  five-gate request handler, secure axios client), and
* the loose revision of `src/main.js` (token-exchange auth, major-unit
  amounts with a round-to-piasters conversion), and
* the token revision of the unnamed file (token-exchange auth with thrown
  errors, any-2xx success) together with its loose validators.

JavaScript values are modelled by `Json` (numbers carry an explicit
NaN / infinity marker and finite values are rationals), network activity by
an `HttpOutcome` oracle passed to each outbound call, and `JSON.parse` by an
oracle function supplied to the handler.
-/

namespace Paymob

/-- Model of a JavaScript number: NaN, the two infinities, or a finite value
represented as a rational (every IEEE double is a rational). -/
inductive JsNumber where
  | nan : JsNumber
  | posInf : JsNumber
  | negInf : JsNumber
  | finite : ℚ → JsNumber
deriving DecidableEq, Repr

/-- Model of a JavaScript value as seen by the handler code: `undefined`,
`null`, booleans, numbers, strings and objects (association lists). -/
inductive Json where
  | jsUndefined : Json
  | null : Json
  | bool : Bool → Json
  | num : JsNumber → Json
  | str : String → Json
  | obj : List (String × Json) → Json

/-- Truthiness of a JavaScript value (the `!x` / `x || y` semantics):
`undefined`, `null`, `false`, `0`, `NaN` and the empty string are falsy. -/
def truthy : Json → Bool
  | .jsUndefined => false
  | .null => false
  | .bool b => b
  | .num .nan => false
  | .num (.finite q) => q != 0
  | .num _ => true
  | .str s => s != ""
  | .obj _ => true

/-- Property access `x?.k`: field lookup on objects, `undefined` otherwise
(this also models plain access `x.k` wherever the code has checked `x`). -/
def getField : Json → String → Json
  | .obj fields, k =>
    match fields.find? (fun p => p.1 = k) with
    | some p => p.2
    | none => .jsUndefined
  | _, _ => .jsUndefined

/-- JavaScript `a || b` on values. -/
def jsOr (a b : Json) : Json := if truthy a then a else b

/-- Printing of a JavaScript number by `String(...)` or a template literal.
Only the integer case is exercised by the handler (amounts); the remaining
cases are a reasonable rendering of the JavaScript formats. -/
def jsNumToString : JsNumber → String
  | .nan => "NaN"
  | .posInf => "Infinity"
  | .negInf => "-Infinity"
  | .finite q => if q.den = 1 then toString q.num else toString q

/-- Conversion applied by a template literal placeholder to a value. -/
def jsToString : Json → String
  | .jsUndefined => "undefined"
  | .null => "null"
  | .bool b => if b then "true" else "false"
  | .num n => jsNumToString n
  | .str s => s
  | .obj _ => "[object Object]"

/-- Rendering of `JSON.stringify` used by an (unreachable) failure branch of
the token revision.  Objects render their fields in order. -/
def jsonStringify : Json → String
  | .jsUndefined => "undefined"
  | .null => "null"
  | .bool b => if b then "true" else "false"
  | .num n => jsNumToString n
  | .str s => "\"" ++ s ++ "\""
  | .obj fields => "\x7b" ++ jsonStringifyFields fields ++ "\x7d"
where
  jsonStringifyFields : List (String × Json) → String
  | [] => ""
  | [(k, v)] => "\"" ++ k ++ "\":" ++ jsonStringify v
  | (k, v) :: rest => "\"" ++ k ++ "\":" ++ jsonStringify v ++ "," ++ jsonStringifyFields rest

/-- Truthiness of an optional environment variable such as
`process.env.PAYMOB_SECRET_KEY`: absent or empty is falsy. -/
def truthyEnv : Option String → Bool
  | none => false
  | some s => s != ""

/-- JavaScript `Math.round`, which is `⌊x + 1/2⌋` on finite doubles and maps
the non-finite values to themselves. -/
def jsRound : JsNumber → JsNumber
  | .finite q => .finite ((⌊q + 1/2⌋ : ℤ) : ℚ)
  | n => n

/-- Multiplication of a JavaScript number by a finite constant, as in
`amount * 100` (NaN and infinities propagate). -/
def jsMulConst (n : JsNumber) (c : ℚ) : JsNumber :=
  match n with
  | .finite q => .finite (q * c)
  | .nan => .nan
  | .posInf => if c > 0 then .posInf else if c < 0 then .negInf else .nan
  | .negInf => if c > 0 then .negInf else if c < 0 then .posInf else .nan

/-- Comparison `x <= c` on a JavaScript number (false whenever `x` is NaN). -/
def jsLeConst (n : JsNumber) (c : ℚ) : Bool :=
  match n with
  | .nan => false
  | .posInf => false
  | .negInf => true
  | .finite q => q ≤ c

/-! Character classes used by the validators.  All predicates are stated on
the code point `c.toNat`; the comments give the literal characters. -/

/-- Characters matched by the strict policy regex `[A-Za-z0-9_-]`. -/
def isIdChar (c : Char) : Bool :=
  (65 ≤ c.toNat ∧ c.toNat ≤ 90) ∨      -- A-Z
  (97 ≤ c.toNat ∧ c.toNat ≤ 122) ∨     -- a-z
  (48 ≤ c.toNat ∧ c.toNat ≤ 57) ∨      -- 0-9
  c.toNat = 95 ∨                       -- underscore
  c.toNat = 45                         -- hyphen

/-- Test of the regex `^[A-Za-z0-9_-]+$` against a string. -/
def idRegexTest (s : String) : Bool :=
  s != "" && s.toList.all isIdChar

/-- Characters matched by the regex word class `\w`, namely `[A-Za-z0-9_]`. -/
def isWordChar (c : Char) : Bool :=
  (65 ≤ c.toNat ∧ c.toNat ≤ 90) ∨
  (97 ≤ c.toNat ∧ c.toNat ≤ 122) ∨
  (48 ≤ c.toNat ∧ c.toNat ≤ 57) ∨
  c.toNat = 95

/-- Whitespace removed by `String.prototype.trim` (ASCII fragment: space and
the control whitespace characters tab through carriage return). -/
def isJsWs (c : Char) : Bool :=
  c.toNat = 32 ∨ (9 ≤ c.toNat ∧ c.toNat ≤ 13)

/-- Characters removed by the strict sanitizer regex
`[<>"'&\x00-\x1f\x7f-\x9f]`. -/
def isStripped (c : Char) : Bool :=
  c.toNat = 60 ∨ c.toNat = 62 ∨        -- angle brackets
  c.toNat = 34 ∨ c.toNat = 39 ∨        -- double and single quote
  c.toNat = 38 ∨                       -- ampersand
  c.toNat ≤ 31 ∨
  (127 ≤ c.toNat ∧ c.toNat ≤ 159)

/-- ASCII lowercasing as applied by the case-insensitive regex flag. -/
def lowerC (c : Char) : Char := Char.toLower c

/-- JavaScript `String.prototype.trim` modelled on the character list. -/
def jsTrimList (l : List Char) : List Char :=
  ((l.dropWhile isJsWs).reverse.dropWhile isJsWs).reverse

/-- Pattern of the sanitizer regex `/javascript:/gi` as a character list. -/
def jsSchemePat : List Char := "javascript:".toList

/-- Scanner for the global case-insensitive removal of the literal pattern
`javascript:`, moving left to right and continuing after each removed match,
exactly as `String.prototype.replace` with a `gi` literal regex does.  The
structural fuel only bounds the number of scanning steps; every step consumes
at least one character, so a fuel of the list length is always enough. -/
def removeJsSchemeGo : Nat → List Char → List Char
  | 0, l => l
  | _ + 1, [] => []
  | fuel + 1, c :: cs =>
    if ((c :: cs).take 11).map lowerC = jsSchemePat then removeJsSchemeGo fuel (cs.drop 10)
    else c :: removeJsSchemeGo fuel cs

/-- Global removal of `/javascript:/gi` from a character list. -/
def removeJsScheme (l : List Char) : List Char := removeJsSchemeGo l.length l

/-- Length of the match of the regex `on\w+=` (case-insensitive) at the head
of the list, if any.  The greedy `\w+` run must be followed directly by `=`,
since `=` is not a word character no backtracking case remains. -/
def onAttrMatchLen : List Char → Option Nat
  | c1 :: c2 :: rest =>
    if lowerC c1 = 'o' ∧ lowerC c2 = 'n' then
      let w := rest.takeWhile isWordChar
      if w.length = 0 then none
      else
        match rest.drop w.length with
        | '=' :: _ => some (2 + w.length + 1)
        | _ => none
    else none
  | _ => none

theorem onAttrMatchLen_pos {l : List Char} {k : Nat} (h : onAttrMatchLen l = some k) :
    0 < k := by
  match l with
  | [] => simp [onAttrMatchLen] at h
  | [c] => simp [onAttrMatchLen] at h
  | c1 :: c2 :: rest =>
    simp only [onAttrMatchLen] at h
    split at h
    · split at h
      · exact absurd h (by simp)
      · split at h
        · simp only [Option.some.injEq] at h; omega
        · exact absurd h (by simp)
    · exact absurd h (by simp)

/-- Scanner for the global removal of matches of `/on\w+=/gi`, moving left
to right and continuing after each removed match (a match of length k
consumes the head plus k - 1 further characters). -/
def removeOnAttrGo : Nat → List Char → List Char
  | 0, l => l
  | _ + 1, [] => []
  | fuel + 1, c :: cs =>
    match onAttrMatchLen (c :: cs) with
    | some k => removeOnAttrGo fuel (cs.drop (k - 1))
    | none => c :: removeOnAttrGo fuel cs

/-- Global removal of `/on\w+=/gi` from a character list. -/
def removeOnAttr (l : List Char) : List Char := removeOnAttrGo l.length l

/-- Strict sanitizer `sanitizeInput(input, maxLength)` of the strict revision:
type check, trim, strip the dangerous character class, remove the
`javascript:` scheme and inline event handler patterns, truncate to
`maxLength`, and reject an empty result. -/
def sanitizeInput (input : Json) (maxLength : Nat) : Except String String :=
  match input with
  | .str s =>
    let sanitized :=
      String.mk ((removeOnAttr (removeJsScheme
        ((jsTrimList s.toList).filter (fun c => ¬ isStripped c)))).take maxLength)
    if sanitized.length = 0 then .error "Input cannot be empty after sanitization"
    else .ok sanitized
  | _ => .error "Input must be a string"

/-- Strict `validateTransactionId`: string type, length 5 to 50, the
character class regex, then the sanitizer with maximum length 50. -/
def validateTransactionId (transactionId : Json) : Except String String :=
  match transactionId with
  | .str s =>
    if s.length < 5 ∨ s.length > 50 then .error "Transaction ID must be 5-50 characters"
    else if ¬ idRegexTest s then .error "Transaction ID contains invalid characters"
    else sanitizeInput (.str s) 50
  | _ => .error "Transaction ID must be a string"

/-- Strict `validateAmount`: a finite number, strictly positive, at most the
piaster ceiling 99999999, and an integer.  The accepted amount is returned
unchanged. -/
def validateAmount (amount : Json) : Except String ℚ :=
  match amount with
  | .num (.finite q) =>
    if q ≤ 0 then .error "Amount must be positive"
    else if q > 99999999 then .error "Amount exceeds maximum limit"
    else if ¬ q.den = 1 then .error "Amount must be an integer (piasters)"
    else .ok q
  | .num _ => .error "Amount must be a finite number"
  | _ => .error "Amount must be a finite number"

/-- Loose sanitizer of the token revision applied to a string: trim, then
remove the `<` and `>` characters. -/
def looseSanitizeStr (s : String) : String :=
  String.mk ((jsTrimList s.toList).filter (fun c => ¬ (c.toNat = 60 ∨ c.toNat = 62)))

/-- Loose `validateTransactionId` of the token revision: string type, length
1 to 100, then the loose sanitizer (no character class restriction). -/
def looseValidateTransactionId (transactionId : Json) : Except String String :=
  match transactionId with
  | .str s =>
    if s.length < 1 ∨ s.length > 100 then
      .error "Invalid transaction ID: must be a string between 1-100 characters"
    else .ok (looseSanitizeStr s)
  | _ => .error "Invalid transaction ID: must be a string between 1-100 characters"

/-! Rate limiter of the strict revision.  The module level `Map` keyed by
client identifier is modelled as an association list; timestamps are
integers (milliseconds, `Date.now()`). -/

/-- Security configuration constant `RATE_LIMIT_WINDOW` (milliseconds). -/
def RATE_LIMIT_WINDOW : Int := 60000

/-- Security configuration constant `MAX_REQUESTS_PER_IP`. -/
def MAX_REQUESTS_PER_IP : Nat := 5

/-- Security configuration constant `MAX_REQUEST_SIZE` (bytes). -/
def MAX_REQUEST_SIZE : Nat := 512000

/-- Model of the module level `rateLimitStore` map: a JavaScript `Map` is a
finite partial function from client identifiers to timestamp lists. -/
abbrev RateStore : Type := String → Option (List Int)

/-- Store of a fresh process, before any request. -/
def emptyStore : RateStore := fun _ => none

/-- Lookup `rateLimitStore.get(clientId)` (also `has` via `isSome`). -/
def storeGet (st : RateStore) (k : String) : Option (List Int) := st k

/-- Update `rateLimitStore.set(clientId, v)`. -/
def storeSet (st : RateStore) (k : String) (v : List Int) : RateStore :=
  fun x => if x = k then some v else st x

/-- Strict revision `checkRateLimit(clientId)`: prune timestamps at or below
`now - RATE_LIMIT_WINDOW`, deny without recording when the pruned count has
reached the cap, otherwise record `now` and allow. -/
def checkRateLimit (st : RateStore) (clientId : String) (now : Int) : Bool × RateStore :=
  let windowStart := now - RATE_LIMIT_WINDOW
  let st1 := if (storeGet st clientId).isSome then st else storeSet st clientId []
  let requests := (storeGet st1 clientId).getD []
  let validRequests := requests.filter (fun t => t > windowStart)
  if validRequests.length ≥ MAX_REQUESTS_PER_IP then (false, st1)
  else (true, storeSet st1 clientId (validRequests ++ [now]))

/-- Sequence of `checkRateLimit` calls for one client at the given times,
threading the store and collecting the returned booleans. -/
def runRateCalls (st : RateStore) (clientId : String) : List Int → List Bool × RateStore
  | [] => ([], st)
  | t :: ts =>
    let r := checkRateLimit st clientId t
    let rest := runRateCalls r.2 clientId ts
    (r.1 :: rest.1, rest.2)

/-! Outbound HTTP model.  The single capture (or auth) call of an invocation
is represented by an `HttpOutcome` oracle: either the gateway produced an
HTTP response with a status and a parsed body, or the request failed at the
transport level (timeout, DNS, connection reset). -/

/-- Outcome of one outbound HTTP request. -/
inductive HttpOutcome where
  | response : Nat → Json → HttpOutcome
  | networkError : String → HttpOutcome

/-- Model of a thrown JavaScript error as observed by a `catch` block: the
`message` string and the optional axios `response` (status and data). -/
structure JsError where
  message : String
  response : Option (Nat × Json)

/-- Plain `axios.post` with the default `validateStatus` (2xx fulfils): a
non-2xx response rejects with the standard axios message and the response
attached, a transport failure rejects with no response attached. -/
def plainAxiosPost (o : HttpOutcome) : Except JsError (Nat × Json) :=
  match o with
  | .response s d =>
    if 200 ≤ s ∧ s < 300 then .ok (s, d)
    else .error ⟨"Request failed with status code " ++ toString s, some (s, d)⟩
  | .networkError m => .error ⟨m, none⟩

/-- Message thrown by the strict revision response error interceptor, chosen
from the status of the failed response (`undefined` when there was none). -/
def interceptorErrMsg (status : Option Nat) : String :=
  match status with
  | some 429 => "Capture rate limit exceeded"
  | some s =>
    if 500 ≤ s then "Capture service unavailable"
    else if s = 401 ∨ s = 403 then "Capture authentication failed"
    else "Capture request failed"
  | none => "Capture request failed"

/-- Test `typeof x === 'object'` (true for objects and for `null`). -/
def typeofObject : Json → Bool
  | .obj _ => true
  | .null => true
  | _ => false

/-- Strict revision `secureAxios.post`: `validateStatus` accepts only 2xx,
the fulfilled interceptor rejects a body that is not an object, and the
rejected interceptor replaces every error by a fixed generic message with no
response attached. -/
def secureAxiosPost (o : HttpOutcome) : Except JsError (Nat × Json) :=
  match o with
  | .response s d =>
    if 200 ≤ s ∧ s < 300 then
      if truthy d && typeofObject d then .ok (s, d)
      else .error ⟨"Invalid capture response format", none⟩
    else .error ⟨interceptorErrMsg (some s), none⟩
  | .networkError _ => .error ⟨interceptorErrMsg none, none⟩

/-- Failure message extraction chain of a `catch` block of the form
`err.response?.data?.detail || err.response?.data?.message || err.message`. -/
def catchErrMsg (e : JsError) : String :=
  let data : Json := match e.response with | some p => p.2 | none => .jsUndefined
  jsToString (jsOr (getField data "detail") (jsOr (getField data "message") (.str e.message)))

/-- Strict revision `captureTransaction(secretKey, transactionId,
amountPiasters)`: guard clauses outside the try block, the secure axios call,
an object shape recheck, success only on status 200 or 201, and a catch that
wraps every thrown error in the `Paymob Capture Request Failed` message. -/
def captureTransaction (secretKey : String) (transactionId : String) (amountPiasters : ℚ)
    (o : HttpOutcome) : Except String Bool :=
  if secretKey = "" then .error "Server configuration error: Missing Secret Key."
  else if transactionId = "" ∨ amountPiasters = 0 ∨ amountPiasters ≤ 0 then
    .error "Invalid input for capture: Missing transactionId or invalid amount."
  else
    let tryBlock : Except JsError Bool :=
      match secureAxiosPost o with
      | .error e => .error e
      | .ok (s, d) =>
        if ¬ (truthy d && typeofObject d) then
          .error ⟨"Invalid capture response format", none⟩
        else if s = 200 ∨ s = 201 then .ok true
        else
          .error ⟨"Paymob Capture Failed: " ++
            jsToString (jsOr (getField d "message") (jsOr (getField d "detail")
              (.str "Capture failed"))), none⟩
    match tryBlock with
    | .ok b => .ok b
    | .error e => .error ("Paymob Capture Request Failed: " ++ catchErrMsg e)

/-- Token revision `captureTransaction(authToken, transactionId,
amountPiasters)` of the unnamed file: plain axios, success on any 2xx
status, failure branch and catch both wrap extracted messages. -/
def tokenCaptureTransaction (authToken : Json) (transactionId : String)
    (amountPiasters : ℚ) (o : HttpOutcome) : Except String Bool :=
  if transactionId = "" ∨ amountPiasters = 0 ∨ amountPiasters ≤ 0 then
    .error "Invalid input for capture: Missing transactionId or invalid amount."
  else
    let _ := authToken  -- carried in the request payload only
    let tryBlock : Except JsError Bool :=
      match plainAxiosPost o with
      | .error e => .error e
      | .ok (s, d) =>
        if 200 ≤ s ∧ s < 300 then .ok true
        else
          .error ⟨"Paymob Capture Failed: " ++
            jsToString (jsOr (getField d "message") (jsOr (getField d "detail")
              (.str (jsonStringify d)))), none⟩
    match tryBlock with
    | .ok b => .ok b
    | .error e => .error ("Paymob Capture Request Failed: " ++ catchErrMsg e)

/-! Request handlers. -/

/-- Response body shape `{ success, error?, requestId? }` passed to
`res.json`. -/
structure ResBody where
  success : Bool
  error : Option String := none
  requestId : Option String := none
deriving DecidableEq, Repr

/-- HTTP response: the status given to `res.json` (200 when omitted) and the
serialized body. -/
structure Response where
  status : Nat
  body : ResBody
deriving DecidableEq, Repr

/-- UTF-8 byte contribution of one character inside a JSON string literal
produced by `JSON.stringify` (escapes for quote, backslash and controls). -/
def jsonEscByteLen (c : Char) : Nat :=
  if c.toNat = 34 ∨ c.toNat = 92 then 2            -- \" and backslash
  else if c.toNat = 8 ∨ c.toNat = 9 ∨ c.toNat = 10 ∨ c.toNat = 12 ∨ c.toNat = 13 then 2
  else if c.toNat < 32 then 6                      -- \u00XX
  else c.utf8Size

/-- Model of `Buffer.byteLength(JSON.stringify(body))` for a string body:
two quotes plus the escaped bytes of every character. -/
def stringifiedByteLength (s : String) : Nat :=
  2 + (s.toList.map jsonEscByteLen).sum

/-- Client identifier derivation of the strict revision:
`req.headers['x-forwarded-for'] || req.headers['x-real-ip'] || 'unknown'`. -/
def clientIdOf (xForwardedFor xRealIp : Option String) : String :=
  if truthyEnv xForwardedFor then xForwardedFor.getD ""
  else if truthyEnv xRealIp then xRealIp.getD ""
  else "unknown"

/-- Incoming request as the strict revision reads it: the method, the two
client address headers, and the raw body (`none` models `undefined`). -/
structure Req where
  method : String
  xForwardedFor : Option String := none
  xRealIp : Option String := none
  body : Option String := none

/-- Environment of one strict handler invocation: the secret from
`process.env`, the generated request identifier, the `JSON.parse` function,
and the gateway behaviour of the capture call. -/
structure StrictEnv where
  secretKey : Option String
  requestId : String
  parse : String → Except String Json
  captureOutcome : HttpOutcome

/-- Inner parse-and-validate try block of the strict revision: missing body,
`JSON.parse`, `validateTransactionId` on `bodyData.transactionId` and
`validateAmount` on `bodyData.amountCents`. -/
def parseAndValidate (parse : String → Except String Json) (b : String) :
    Except String (String × ℚ) :=
  if b = "" then .error "Request body is missing."
  else
    match parse b with
    | .error m => .error m
    | .ok bodyData =>
      match validateTransactionId (getField bodyData "transactionId") with
      | .error m => .error m
      | .ok transactionId =>
        match validateAmount (getField bodyData "amountCents") with
        | .error m => .error m
        | .ok amountCents => .ok (transactionId, amountCents)

/-- Faults that escape the inner gates of the strict handler.  The only such
fault in the embedded fragment is `Buffer.byteLength(JSON.stringify(x))`
applied to an `undefined` body, which throws a `TypeError`. -/
inductive Fault where
  | byteLengthOfUndefined : Fault
deriving DecidableEq, Repr

/-- Body of the outer try block of the strict revision default handler: the
five gates (method, rate limit, body size, credential, parse and validate)
followed by the capture call.  A `Fault` escapes to the outer catch carrying
the rate store as mutated so far. -/
def strictHandlerTry (env : StrictEnv) (req : Req) (st : RateStore) (now : Int) :
    Except (Fault × RateStore) (Response × RateStore) :=
  if req.method ≠ "POST" then
    .ok (⟨405, ⟨false, some "Method not allowed", none⟩⟩, st)
  else
    let clientId := clientIdOf req.xForwardedFor req.xRealIp
    let rl := checkRateLimit st clientId now
    if ¬ rl.1 then .ok (⟨429, ⟨false, some "Too many capture requests", none⟩⟩, rl.2)
    else
      match req.body with
      | none => .error (.byteLengthOfUndefined, rl.2)
      | some b =>
        if stringifiedByteLength b > MAX_REQUEST_SIZE then
          .ok (⟨413, ⟨false, some "Request too large", none⟩⟩, rl.2)
        else if ¬ truthyEnv env.secretKey then
          .ok (⟨500, ⟨false, some "Server configuration error.", none⟩⟩, rl.2)
        else
          match parseAndValidate env.parse b with
          | .error _ => .ok (⟨400, ⟨false, some "Invalid request body", none⟩⟩, rl.2)
          | .ok (transactionId, amountCents) =>
            match captureTransaction (env.secretKey.getD "") transactionId amountCents
                env.captureOutcome with
            | .ok _ => .ok (⟨200, ⟨true, none, some env.requestId⟩⟩, rl.2)
            | .error _ =>
              .ok (⟨500, ⟨false, some "Capture process failed", some env.requestId⟩⟩, rl.2)

/-- Strict revision default handler: the outer catch maps every escaped
fault to the generic 500 response. -/
def strictHandler (env : StrictEnv) (req : Req) (st : RateStore) (now : Int) :
    Response × RateStore :=
  match strictHandlerTry env req st now with
  | .ok r => r
  | .error (_, st1) => (⟨500, ⟨false, some "Server error", some env.requestId⟩⟩, st1)

/-! Loose revision of `src/main.js`: token-exchange auth, major-unit amount
with `Math.round(amount * 100)`, boolean-returning gateway helpers. -/

/-- Loose revision `getAuthToken(apiKey)`: null on a missing key, on any
request failure, and on a 2xx response without a truthy `token` field;
otherwise the `token` field of the response body. -/
def looseGetAuthToken (apiKey : Option String) (o : HttpOutcome) : Json :=
  if ¬ truthyEnv apiKey then .null
  else
    match o with
    | .response s d =>
      if 200 ≤ s ∧ s < 300 then
        if truthy d ∧ truthy (getField d "token") then getField d "token" else .null
      else .null  -- axios rejected, catch returns null
    | .networkError _ => .null

/-- Loose revision `captureTransaction(authToken, transactionId,
amountPiasters)`: false on falsy or non-positive inputs before any network
activity, true exactly on a 2xx response with a truthy body. -/
def looseCaptureTransaction (authToken : Json) (transactionId : Json)
    (amountPiasters : JsNumber) (o : HttpOutcome) : Bool :=
  if ¬ truthy transactionId ∨ ¬ truthy (.num amountPiasters) ∨ jsLeConst amountPiasters 0 then
    false
  else
    let _ := authToken  -- carried in the request payload only
    match o with
    | .response s d => if (200 ≤ s ∧ s < 300) ∧ truthy d then true else false
    | .networkError _ => false

/-- Environment of one loose handler invocation. -/
structure LooseEnv where
  apiKey : Option String
  parse : String → Except String Json
  authOutcome : HttpOutcome
  captureOutcome : HttpOutcome

/-- Loose revision body validation try block: body presence, `JSON.parse`,
truthy string `transactionId`, numeric `amount` with `amount <= 0` rejected
(a NaN amount passes, as in the code).  Returns the raw field values. -/
def looseParseAndValidate (parse : String → Except String Json) (body : Option String) :
    Except String (Json × JsNumber) :=
  match body with
  | none => .error "Request body is missing."
  | some b =>
    if b = "" then .error "Request body is missing."
    else
      match parse b with
      | .error m => .error m
      | .ok bodyData =>
        let transactionId := getField bodyData "transactionId"
        let amount := getField bodyData "amount"
        if ¬ (truthy transactionId &&
            (match transactionId with | .str _ => true | _ => false)) then
          .error ("Invalid transactionId received: " ++ jsToString transactionId)
        else
          match amount with
          | .num n =>
            if jsLeConst n 0 then .error ("Invalid amount received: " ++ jsToString amount)
            else .ok (transactionId, n)
          | _ => .error ("Invalid amount received: " ++ jsToString amount)

/-- Loose revision default handler: credential gate (500), body validation
(400), then the token exchange and the capture call inside a try whose catch
reports the flow error message with status 500. -/
def looseHandler (env : LooseEnv) (body : Option String) : Response :=
  if ¬ truthyEnv env.apiKey then
    ⟨500, ⟨false, some "Server configuration error.", none⟩⟩
  else
    match looseParseAndValidate env.parse body with
    | .error m => ⟨400, ⟨false, some ("Invalid request body: " ++ m), none⟩⟩
    | .ok (transactionId, amount) =>
      let amountPiasters := jsRound (jsMulConst amount 100)
      let authToken := looseGetAuthToken env.apiKey env.authOutcome
      if ¬ truthy authToken then
        ⟨500, ⟨false, some "Paymob authentication failed.", none⟩⟩
      else if ¬ looseCaptureTransaction authToken transactionId amountPiasters
          env.captureOutcome then
        ⟨500, ⟨false, some "Paymob capture API call failed.", none⟩⟩
      else ⟨200, ⟨true, none, none⟩⟩

/-! Helper lemmas about the sanitizer. -/

theorem dropWhile_eq_self_of_not {α : Type} (p : α → Bool) (l : List α)
    (h : ∀ a ∈ l, ¬ p a) : l.dropWhile p = l := by
  cases l with
  | nil => rfl
  | cons a as => simp [List.dropWhile, h a (List.mem_cons_self a as)]

theorem jsTrimList_eq_self {l : List Char} (h : ∀ c ∈ l, ¬ isJsWs c) :
    jsTrimList l = l := by
  unfold jsTrimList
  rw [dropWhile_eq_self_of_not _ _ h]
  rw [dropWhile_eq_self_of_not _ _ (fun c hc => h c (List.mem_reverse.mp hc))]
  exact List.reverse_reverse l

theorem toNat_toLower_of_upper {c : Char} (h1 : 65 ≤ c.toNat) (h2 : c.toNat ≤ 90) :
    (Char.toLower c).toNat = c.toNat + 32 := by
  have hv : c.toNat + 32 < 0xd800 := by omega
  simp only [Char.toLower, ge_iff_le, h1, h2, and_true, if_pos, true_and]
  rw [Char.ofNat, dif_pos (Or.inl hv)]
  simp [Char.ofNatAux, Char.toNat, UInt32.toNat, UInt32.ofNat', BitVec.toNat_ofNatLt]

theorem toLower_eq_self_of_not_upper {c : Char} (h : ¬ (65 ≤ c.toNat ∧ c.toNat ≤ 90)) :
    Char.toLower c = c := by
  simp only [Char.toLower]
  rw [if_neg h]

theorem lowerC_ne_colon_of_idChar {c : Char} (h : isIdChar c = true) : lowerC c ≠ ':' := by
  simp only [isIdChar, decide_eq_true_eq] at h
  intro hc
  have h58 : (lowerC c).toNat = 58 := by rw [hc]; rfl
  unfold lowerC at h58
  by_cases hu : 65 ≤ c.toNat ∧ c.toNat ≤ 90
  · rw [toNat_toLower_of_upper hu.1 hu.2] at h58; omega
  · rw [toLower_eq_self_of_not_upper hu] at h58; omega

theorem removeJsSchemeGo_eq_self (fuel : Nat) :
    ∀ l : List Char, (∀ c ∈ l, lowerC c ≠ ':') → removeJsSchemeGo fuel l = l := by
  induction fuel with
  | zero => intro l _; rfl
  | succ n ih =>
    intro l h
    match l with
    | [] => rfl
    | c :: cs =>
      have hm : ¬ ((c :: cs).take 11).map lowerC = jsSchemePat := by
        intro hmm
        have hcolon : (':' : Char) ∈ jsSchemePat := by decide
        rw [← hmm] at hcolon
        obtain ⟨x, hx, hlx⟩ := List.mem_map.mp hcolon
        exact h x (List.mem_of_mem_take hx) hlx
      rw [removeJsSchemeGo, if_neg hm,
        ih cs (fun x hx => h x (List.mem_cons_of_mem c hx))]

theorem removeJsScheme_eq_self {l : List Char} (h : ∀ c ∈ l, lowerC c ≠ ':') :
    removeJsScheme l = l :=
  removeJsSchemeGo_eq_self l.length l h

theorem onAttrMatchLen_eq_none {l : List Char} (h : ∀ c ∈ l, c ≠ '=') :
    onAttrMatchLen l = none := by
  match l with
  | [] => rfl
  | [c] => rfl
  | c1 :: c2 :: rest =>
    simp only [onAttrMatchLen]
    split
    · split
      · rfl
      · split
        · rename_i heq
          exfalso
          have : ('=' : Char) ∈ rest := by
            have hsub := List.drop_subset (rest.takeWhile isWordChar).length rest
            rw [heq] at hsub
            exact hsub (List.mem_cons_self _ _)
          exact h '=' (List.mem_cons_of_mem c1 (List.mem_cons_of_mem c2 this)) rfl
        · rfl
    · rfl

theorem removeOnAttrGo_eq_self (fuel : Nat) :
    ∀ l : List Char, (∀ c ∈ l, c ≠ '=') → removeOnAttrGo fuel l = l := by
  induction fuel with
  | zero => intro l _; rfl
  | succ n ih =>
    intro l h
    match l with
    | [] => rfl
    | c :: cs =>
      rw [removeOnAttrGo, onAttrMatchLen_eq_none h,
        ih cs (fun x hx => h x (List.mem_cons_of_mem c hx))]

theorem removeOnAttr_eq_self {l : List Char} (h : ∀ c ∈ l, c ≠ '=') :
    removeOnAttr l = l :=
  removeOnAttrGo_eq_self l.length l h

theorem idChar_not_ws {c : Char} (h : isIdChar c = true) : ¬ isJsWs c = true := by
  simp only [isIdChar, isJsWs, decide_eq_true_eq] at *
  omega

theorem idChar_not_stripped {c : Char} (h : isIdChar c = true) : ¬ isStripped c = true := by
  simp only [isIdChar, isStripped, decide_eq_true_eq] at *
  omega

theorem idChar_ne_eq_sign {c : Char} (h : isIdChar c = true) : c ≠ '=' := by
  simp only [isIdChar, decide_eq_true_eq] at h
  intro hc
  have : c.toNat = 61 := by rw [hc]; rfl
  omega

/-- Sanitizer fixpoint: a string of 5 to 50 policy characters passes
`sanitizeInput` unchanged. -/
theorem sanitizeInput_eq_self {s : String} (h5 : 5 ≤ s.length) (h50 : s.length ≤ 50)
    (hc : ∀ c ∈ s.toList, isIdChar c = true) :
    sanitizeInput (.str s) 50 = .ok s := by
  simp only [sanitizeInput]
  have htrim : jsTrimList s.toList = s.toList :=
    jsTrimList_eq_self (fun c hcm => idChar_not_ws (hc c hcm))
  have hfilter : (s.toList.filter (fun c => ¬ isStripped c)) = s.toList := by
    rw [List.filter_eq_self]
    intro a ha
    simpa using idChar_not_stripped (hc a ha)
  have hscheme : removeJsScheme s.toList = s.toList :=
    removeJsScheme_eq_self (fun c hcm => lowerC_ne_colon_of_idChar (hc c hcm))
  have hattr : removeOnAttr s.toList = s.toList :=
    removeOnAttr_eq_self (fun c hcm => idChar_ne_eq_sign (hc c hcm))
  have hlen : s.toList.length = s.length := rfl
  have htake : s.toList.take 50 = s.toList := List.take_of_length_le (by omega)
  rw [htrim, hfilter, hscheme, hattr, htake]
  have hmk : String.mk s.toList = s := rfl
  rw [hmk, if_neg (by omega)]

/-- Characters surviving the `removeJsScheme` scanner come from the input. -/
theorem mem_of_mem_removeJsSchemeGo (fuel : Nat) :
    ∀ {l : List Char} {c : Char}, c ∈ removeJsSchemeGo fuel l → c ∈ l := by
  induction fuel with
  | zero => intro l c h; exact h
  | succ n ih =>
    intro l c h
    match l with
    | [] => exact h
    | a :: as =>
      rw [removeJsSchemeGo] at h
      by_cases hm : ((a :: as).take 11).map lowerC = jsSchemePat
      · rw [if_pos hm] at h
        exact List.mem_cons_of_mem a (List.drop_subset 10 as (ih h))
      · rw [if_neg hm] at h
        rcases List.mem_cons.mp h with h1 | h2
        · exact h1 ▸ List.mem_cons_self a as
        · exact List.mem_cons_of_mem a (ih h2)

/-- Characters surviving `removeJsScheme` come from the input. -/
theorem mem_of_mem_removeJsScheme {l : List Char} {c : Char}
    (h : c ∈ removeJsScheme l) : c ∈ l :=
  mem_of_mem_removeJsSchemeGo l.length h

/-- Characters surviving the `removeOnAttr` scanner come from the input. -/
theorem mem_of_mem_removeOnAttrGo (fuel : Nat) :
    ∀ {l : List Char} {c : Char}, c ∈ removeOnAttrGo fuel l → c ∈ l := by
  induction fuel with
  | zero => intro l c h; exact h
  | succ n ih =>
    intro l c h
    match l with
    | [] => exact h
    | a :: as =>
      rw [removeOnAttrGo] at h
      match hm : onAttrMatchLen (a :: as) with
      | some k =>
        rw [hm] at h
        exact List.mem_cons_of_mem a (List.drop_subset (k - 1) as (ih h))
      | none =>
        rw [hm] at h
        rcases List.mem_cons.mp h with h1 | h2
        · exact h1 ▸ List.mem_cons_self a as
        · exact List.mem_cons_of_mem a (ih h2)

/-- Characters surviving `removeOnAttr` come from the input. -/
theorem mem_of_mem_removeOnAttr {l : List Char} {c : Char}
    (h : c ∈ removeOnAttr l) : c ∈ l :=
  mem_of_mem_removeOnAttrGo l.length h

/-! Claim theorems. -/

/-- C6: strict minor-unit amount validation accepts exactly the finite,
strictly positive, integer amounts of at most 99999999 piasters, returns an
accepted amount unchanged, and rejects every non-finite-number input with
the finiteness error. -/
theorem validateAmount_strict_minor_unit :
    (∀ (j : Json) (q : ℚ), validateAmount j = .ok q ↔
      (j = .num (.finite q) ∧ 0 < q ∧ q ≤ 99999999 ∧ q.den = 1)) ∧
    (∀ j : Json, (∀ q : ℚ, j ≠ .num (.finite q)) →
      validateAmount j = .error "Amount must be a finite number") := by
  constructor
  · intro j q
    constructor
    · intro h
      match j with
      | .jsUndefined | .null | .bool _ | .str _ | .obj _ => simp [validateAmount] at h
      | .num .nan | .num .posInf | .num .negInf => simp [validateAmount] at h
      | .num (.finite r) =>
        simp only [validateAmount] at h
        split_ifs at h with hle hceil hden
        · simp only [Except.ok.injEq] at h
          subst h
          refine ⟨rfl, by linarith [not_le.mp hle], not_lt.mp (by simpa using hceil), ?_⟩
          simpa using hden
    · rintro ⟨rfl, hpos, hceil, hden⟩
      simp only [validateAmount]
      rw [if_neg (by linarith), if_neg (by simpa using not_lt.mpr hceil), if_neg (by simp [hden])]
  · intro j hne
    match j with
    | .jsUndefined | .null | .bool _ | .str _ | .obj _ => simp [validateAmount]
    | .num .nan | .num .posInf | .num .negInf => simp [validateAmount]
    | .num (.finite r) => exact absurd rfl (hne r)

/-- Existence of a rejection for every value outside the accepted amount
range, exhibited on the boundary neighbours and a non-integer. -/
theorem validateAmount_strict_minor_unit_witness :
    validateAmount (.num (.finite 2500)) = .ok 2500 ∧
    validateAmount (.num .nan) = .error "Amount must be a finite number" ∧
    validateAmount (.num (.finite 99999999)) = .ok 99999999 ∧
    ¬ validateAmount (.num (.finite 100000000)) = .ok 100000000 ∧
    ¬ validateAmount (.num (.finite (1/2))) = .ok (1/2) ∧
    ¬ validateAmount (.num (.finite 0)) = .ok 0 := by
  refine ⟨(validateAmount_strict_minor_unit.1 _ _).mpr ⟨rfl, by norm_num, by norm_num, rfl⟩,
    validateAmount_strict_minor_unit.2 _ (fun q h => by simp at h),
    (validateAmount_strict_minor_unit.1 _ _).mpr ⟨rfl, by norm_num, by norm_num, rfl⟩,
    fun h => ?_, fun h => ?_, fun h => ?_⟩
  · have := ((validateAmount_strict_minor_unit.1 _ _).mp h).2.2.1
    norm_num at this
  · have := ((validateAmount_strict_minor_unit.1 _ _).mp h).2.2.2
    norm_num at this
  · have := ((validateAmount_strict_minor_unit.1 _ _).mp h).2.1
    norm_num at this

/-- Inversion of a successful strict transaction id validation: the input is
a string of policy length that passes the character class regex, and the
returned value is that string unchanged. -/
theorem validateTransactionId_ok_inv {j : Json} {out : String}
    (h : validateTransactionId j = .ok out) :
    ∃ s : String, j = .str s ∧ 5 ≤ s.length ∧ s.length ≤ 50 ∧ idRegexTest s = true ∧
      out = s := by
  match j with
  | .jsUndefined | .null | .bool _ | .num _ | .obj _ => simp [validateTransactionId] at h
  | .str s =>
    refine ⟨s, rfl, ?_⟩
    simp only [validateTransactionId] at h
    split_ifs at h with hlen hre
    · have hlen5 : 5 ≤ s.length := by omega
      have hlen50 : s.length ≤ 50 := by omega
      have hreg : idRegexTest s = true := by simpa using hre
      have hchars : ∀ c ∈ s.toList, isIdChar c = true := by
        have := (Bool.and_eq_true _ _).mp hreg
        exact fun c hc => (List.all_eq_true.mp this.2) c hc
      rw [sanitizeInput_eq_self hlen5 hlen50 hchars] at h
      simp only [Except.ok.injEq] at h
      exact ⟨hlen5, hlen50, hreg, h.symm⟩

/-- C7: a transaction id failing the length or character class policy is
rejected; one satisfying the policy is accepted and returned unchanged in
content; and validation is idempotent on its own output. -/
theorem validateTransactionId_policy :
    (∀ s : String, (s.length < 5 ∨ s.length > 50 ∨ ¬ idRegexTest s) →
      ∃ m, validateTransactionId (.str s) = .error m) ∧
    (∀ s : String, 5 ≤ s.length → s.length ≤ 50 → idRegexTest s →
      validateTransactionId (.str s) = .ok s) ∧
    (∀ (j : Json) (out : String), validateTransactionId j = .ok out →
      validateTransactionId (.str out) = .ok out) := by
  have accept : ∀ s : String, 5 ≤ s.length → s.length ≤ 50 → idRegexTest s →
      validateTransactionId (.str s) = .ok s := by
    intro s h5 h50 hreg
    simp only [validateTransactionId]
    rw [if_neg (by omega), if_neg (by simp [hreg])]
    have hchars : ∀ c ∈ s.toList, isIdChar c = true := by
      have := (Bool.and_eq_true _ _).mp hreg
      exact fun c hc => (List.all_eq_true.mp this.2) c hc
    exact sanitizeInput_eq_self h5 h50 hchars
  refine ⟨?_, accept, ?_⟩
  · intro s h
    simp only [validateTransactionId]
    by_cases hlen : s.length < 5 ∨ s.length > 50
    · rw [if_pos hlen]
      exact ⟨_, rfl⟩
    · rw [if_neg hlen]
      have hre : ¬ idRegexTest s := by
        rcases h with h | h | h
        · omega
        · omega
        · exact h
      rw [if_pos (by simpa using hre)]
      exact ⟨_, rfl⟩
  · intro j out h
    obtain ⟨s, rfl, h5, h50, hreg, hout⟩ := validateTransactionId_ok_inv h
    rw [hout]
    exact accept s h5 h50 hreg

/-- Concrete instances of the transaction id policy: a conforming id is
returned unchanged and a short id is rejected. -/
theorem validateTransactionId_policy_witness :
    validateTransactionId (.str "TXN12345") = .ok "TXN12345" ∧
    (∃ m, validateTransactionId (.str "ab") = .error m) := by
  exact ⟨validateTransactionId_policy.2.1 "TXN12345" (by decide) (by decide) (by decide),
    validateTransactionId_policy.1 "ab" (Or.inl (by decide))⟩

/-- C2: with cap 5 and window 60000 ms, a call whose pruned timestamp count
has reached the cap returns false and leaves the store unchanged (the
attempt is not recorded); a call under the cap returns true and stores the
pruned list with `now` appended; five calls in one window are allowed, the
sixth is denied, and a call after the window has passed is allowed again. -/
theorem checkRateLimit_spec :
    (∀ (st : RateStore) (cid : String) (now : Int),
      MAX_REQUESTS_PER_IP ≤
          (((storeGet st cid).getD []).filter (fun t => t > now - RATE_LIMIT_WINDOW)).length →
        checkRateLimit st cid now = (false, st)) ∧
    (∀ (st : RateStore) (cid : String) (now : Int),
      (((storeGet st cid).getD []).filter (fun t => t > now - RATE_LIMIT_WINDOW)).length <
          MAX_REQUESTS_PER_IP →
        (checkRateLimit st cid now).1 = true ∧
        storeGet (checkRateLimit st cid now).2 cid =
          some ((((storeGet st cid).getD []).filter (fun t => t > now - RATE_LIMIT_WINDOW))
            ++ [now])) ∧
    (runRateCalls emptyStore "client" [1, 2, 3, 4, 5, 6, 60006]).1 =
      [true, true, true, true, true, false, true] := by
  refine ⟨?_, ?_, by decide⟩
  · intro st cid now h
    cases hg : storeGet st cid with
    | none =>
      try rw [hg] at h
      simp [MAX_REQUESTS_PER_IP] at h
    | some l =>
      try rw [hg] at h
      simp only [Option.getD_some] at h
      simp only [checkRateLimit, hg, Option.isSome_some, if_true, Option.getD_some]
      rw [if_pos (by simpa [MAX_REQUESTS_PER_IP] using h)]
  · intro st cid now h
    cases hg : storeGet st cid with
    | none =>
      try rw [hg] at h
      try rw [hg]
      have hset : storeGet (storeSet st cid []) cid = some [] := by
        simp [storeGet, storeSet]
      simp only [checkRateLimit, hg, Option.isSome_none, if_false, hset,
        Option.getD_none, Option.getD_some, List.filter_nil, List.length_nil,
        List.nil_append]
      rw [if_neg (by simp [hset, MAX_REQUESTS_PER_IP])]
      constructor
      · rfl
      · simp [storeGet, storeSet]
    | some l =>
      try rw [hg] at h
      try rw [hg]
      simp only [Option.getD_some] at h ⊢
      simp only [checkRateLimit, hg, Option.isSome_some, if_true, Option.getD_some]
      rw [if_neg (by omega)]
      constructor
      · rfl
      · simp [storeGet, storeSet]

/-- Concrete instances of the rate limiter contract: a full window denies
and leaves the store unchanged, an empty store allows. -/
theorem checkRateLimit_spec_witness :
    checkRateLimit (storeSet emptyStore "c" [10, 20, 30, 40, 50]) "c" 60 =
      (false, storeSet emptyStore "c" [10, 20, 30, 40, 50]) ∧
    (checkRateLimit emptyStore "c" 0).1 = true := by
  exact ⟨checkRateLimit_spec.1 _ _ _ (by decide),
    (checkRateLimit_spec.2.1 emptyStore "c" 0 (by decide)).1⟩

/-- C3 counterexample: an id containing an angle bracket is rejected
outright by the strict character class check, so the bracket is not stripped
before the length and character class checks are finalized; stripping it
first (as the claim describes) would instead have yielded an accepted id. -/
theorem angle_bracket_not_prestripped :
    validateTransactionId (.str "abc<def") =
      .error "Transaction ID contains invalid characters" ∧
    looseSanitizeStr "abc<def" = "abcdef" ∧
    validateTransactionId (.str "abcdef") = .ok "abcdef" :=
  ⟨by rfl, by rfl, by rfl⟩

/-- C3 amended: in the strict revision an id containing an angle bracket is
rejected by validation (never stripped and accepted), and in both the strict
and the loose revision every identifier validation returns (the value handed
to the gateway call) contains no angle bracket. -/
theorem angle_brackets_never_reach_gateway :
    (∀ s : String, ('<' ∈ s.toList ∨ '>' ∈ s.toList) →
      ∃ m, validateTransactionId (.str s) = .error m) ∧
    (∀ (j : Json) (out : String), validateTransactionId j = .ok out →
      '<' ∉ out.toList ∧ '>' ∉ out.toList) ∧
    (∀ (j : Json) (out : String), looseValidateTransactionId j = .ok out →
      '<' ∉ out.toList ∧ '>' ∉ out.toList) := by
  refine ⟨?_, ?_, ?_⟩
  · intro s hangle
    simp only [validateTransactionId]
    by_cases hlen : s.length < 5 ∨ s.length > 50
    · rw [if_pos hlen]
      exact ⟨_, rfl⟩
    · rw [if_neg hlen]
      have hre : ¬ idRegexTest s = true := by
        simp only [idRegexTest, Bool.and_eq_true, List.all_eq_true]
        rintro ⟨-, hall⟩
        rcases hangle with hm | hm
        · exact absurd (hall '<' hm) (by decide)
        · exact absurd (hall '>' hm) (by decide)
      rw [if_pos (by simpa using hre)]
      exact ⟨_, rfl⟩
  · intro j out h
    obtain ⟨s, rfl, h5, h50, hreg, hout⟩ := validateTransactionId_ok_inv h
    subst hout
    have hall := (List.all_eq_true.mp ((Bool.and_eq_true _ _).mp hreg).2)
    constructor
    · intro hm
      exact absurd (hall '<' hm) (by decide)
    · intro hm
      exact absurd (hall '>' hm) (by decide)
  · intro j out h
    match j with
    | .jsUndefined | .null | .bool _ | .num _ | .obj _ => simp [looseValidateTransactionId] at h
    | .str s =>
      simp only [looseValidateTransactionId] at h
      split_ifs at h
      simp only [Except.ok.injEq] at h
      subst h
      have hmem : ∀ c ∈ (looseSanitizeStr s).toList, ¬ (c.toNat = 60 ∨ c.toNat = 62) := by
        intro c hc
        have : c ∈ (jsTrimList s.toList).filter (fun c => ¬ (c.toNat = 60 ∨ c.toNat = 62)) := hc
        have := List.of_mem_filter this
        simpa using this
      constructor
      · intro hm
        exact hmem '<' hm (Or.inl rfl)
      · intro hm
        exact hmem '>' hm (Or.inr rfl)

/-- Concrete instances of the angle bracket guarantees. -/
theorem angle_brackets_never_reach_gateway_witness :
    (∃ m, validateTransactionId (.str "TX<N99") = .error m) ∧
    ('<' ∉ ("TXN12345").toList ∧ '>' ∉ ("TXN12345").toList) := by
  refine ⟨angle_brackets_never_reach_gateway.1 "TX<N99" (Or.inl (by decide)), ?_⟩
  exact angle_brackets_never_reach_gateway.2.1 (.str "TXN12345") "TXN12345" (by rfl)

/-- Nonemptiness of a message built by prefixing. -/
theorem prefixed_msg_ne_empty (p x : String) (hp : p.length ≠ 0) : p ++ x ≠ "" := by
  intro h
  have hl := congrArg String.length h
  rw [String.length_append] at hl
  have : ("" : String).length = 0 := rfl
  omega

/-- Guard condition of the capture calls is false for valid inputs. -/
theorem capture_guard_false {tid : String} {amt : ℚ} (htid : tid ≠ "") (hamt : 0 < amt) :
    ¬ (tid = "" ∨ amt = 0 ∨ amt ≤ 0) := by
  push_neg
  exact ⟨htid, ne_of_gt hamt, hamt⟩

/-- Complete case analysis of the strict revision capture call for valid
inputs: the result for every possible gateway behaviour. -/
theorem captureTransaction_cases (sk tid : String) (amt : ℚ)
    (hsk : sk ≠ "") (htid : tid ≠ "") (hamt : 0 < amt) :
    (∀ (s : Nat) (d : Json), ¬ (200 ≤ s ∧ s < 300) →
      captureTransaction sk tid amt (.response s d) =
        .error ("Paymob Capture Request Failed: " ++ interceptorErrMsg (some s))) ∧
    (∀ m, captureTransaction sk tid amt (.networkError m) =
        .error ("Paymob Capture Request Failed: " ++ interceptorErrMsg none)) ∧
    (∀ (s : Nat) (d : Json), (200 ≤ s ∧ s < 300) → ¬ (truthy d && typeofObject d) = true →
      captureTransaction sk tid amt (.response s d) =
        .error "Paymob Capture Request Failed: Invalid capture response format") ∧
    (∀ (s : Nat) (d : Json), (200 ≤ s ∧ s < 300) → (truthy d && typeofObject d) = true →
      (s = 200 ∨ s = 201) →
      captureTransaction sk tid amt (.response s d) = .ok true) ∧
    (∀ (s : Nat) (d : Json), (200 ≤ s ∧ s < 300) → (truthy d && typeofObject d) = true →
      ¬ (s = 200 ∨ s = 201) →
      captureTransaction sk tid amt (.response s d) =
        .error ("Paymob Capture Request Failed: Paymob Capture Failed: " ++
          jsToString (jsOr (getField d "message") (jsOr (getField d "detail")
            (.str "Capture failed"))))) := by
  have hguard := capture_guard_false htid hamt
  refine ⟨?_, ?_, ?_, ?_, ?_⟩
  · intro s d h2
    simp only [captureTransaction, if_neg hsk, if_neg hguard, secureAxiosPost]
    rw [if_neg h2]
    rfl
  · intro m
    simp only [captureTransaction, if_neg hsk, if_neg hguard, secureAxiosPost]
    rfl
  · intro s d h2 hobj
    simp only [captureTransaction, if_neg hsk, if_neg hguard, secureAxiosPost]
    rw [if_pos h2, if_neg hobj]
    rfl
  · intro s d h2 hobj hs
    simp only [captureTransaction, if_neg hsk, if_neg hguard, secureAxiosPost]
    rw [if_pos h2, if_pos hobj]
    simp only [hobj, Bool.not_true, if_neg, not_true_eq_false, if_false, reduceIte]
    rw [if_pos hs]
  · intro s d h2 hobj hs
    simp only [captureTransaction, if_neg hsk, if_neg hguard, secureAxiosPost]
    rw [if_pos h2, if_pos hobj]
    simp only [hobj, Bool.not_true, if_neg, not_true_eq_false, if_false, reduceIte]
    rw [if_neg hs]
    rfl

/-- Complete case analysis of the token revision capture call for valid
inputs. -/
theorem tokenCaptureTransaction_cases (tok : Json) (tid : String) (amt : ℚ)
    (htid : tid ≠ "") (hamt : 0 < amt) :
    (∀ (s : Nat) (d : Json), (200 ≤ s ∧ s < 300) →
      tokenCaptureTransaction tok tid amt (.response s d) = .ok true) ∧
    (∀ (s : Nat) (d : Json), ¬ (200 ≤ s ∧ s < 300) →
      tokenCaptureTransaction tok tid amt (.response s d) =
        .error ("Paymob Capture Request Failed: " ++
          jsToString (jsOr (getField d "detail") (jsOr (getField d "message")
            (.str ("Request failed with status code " ++ toString s)))))) ∧
    (∀ m, tokenCaptureTransaction tok tid amt (.networkError m) =
        .error ("Paymob Capture Request Failed: " ++ m)) := by
  have hguard := capture_guard_false htid hamt
  refine ⟨?_, ?_, ?_⟩
  · intro s d h2
    simp only [tokenCaptureTransaction, if_neg hguard, plainAxiosPost]
    rw [if_pos h2]
    simp only [if_pos h2]
  · intro s d h2
    simp only [tokenCaptureTransaction, if_neg hguard, plainAxiosPost]
    rw [if_neg h2]
    rfl
  · intro m
    simp only [tokenCaptureTransaction, if_neg hguard, plainAxiosPost]
    rfl

/-- C4 counterexample: the token revision capture call reports success on a
gateway status of 204, which is neither 200 nor 201. -/
theorem capture_success_not_only_200_201 :
    tokenCaptureTransaction (.str "tok") "TXN12345" 100 (.response 204 (.obj [])) = .ok true ∧
    ¬ ((204 : Nat) = 200 ∨ (204 : Nat) = 201) :=
  ⟨by rfl, by decide⟩

/-- C4 amended: the strict revision capture succeeds exactly on status 200
or 201 carrying a well formed (object) body, the token revision succeeds
exactly on any 2xx status, and in both revisions every other status and
every transport level failure produces a failure carrying a nonempty error
message rather than success. -/
theorem capture_success_statuses (sk tid : String) (amt : ℚ) (tok : Json)
    (hsk : sk ≠ "") (htid : tid ≠ "") (hamt : 0 < amt) :
    (∀ (s : Nat) (d : Json),
      captureTransaction sk tid amt (.response s d) = .ok true ↔
        ((s = 200 ∨ s = 201) ∧ (truthy d && typeofObject d) = true)) ∧
    (∀ (s : Nat) (d : Json),
      tokenCaptureTransaction tok tid amt (.response s d) = .ok true ↔
        (200 ≤ s ∧ s < 300)) ∧
    (∀ o : HttpOutcome, captureTransaction sk tid amt o = .ok true ∨
      ∃ e, captureTransaction sk tid amt o = .error e ∧ e ≠ "") ∧
    (∀ o : HttpOutcome, tokenCaptureTransaction tok tid amt o = .ok true ∨
      ∃ e, tokenCaptureTransaction tok tid amt o = .error e ∧ e ≠ "") := by
  obtain ⟨hnon2xx, hnet, hbad, hok, h2xxfail⟩ := captureTransaction_cases sk tid amt hsk htid hamt
  obtain ⟨tok2xx, toknon2xx, toknet⟩ := tokenCaptureTransaction_cases tok tid amt htid hamt
  refine ⟨?_, ?_, ?_, ?_⟩
  · intro s d
    constructor
    · intro h
      by_cases h2 : 200 ≤ s ∧ s < 300
      · by_cases hobj : (truthy d && typeofObject d) = true
        · by_cases hs : s = 200 ∨ s = 201
          · exact ⟨hs, hobj⟩
          · rw [h2xxfail s d h2 hobj hs] at h
            exact absurd h (by simp)
        · rw [hbad s d h2 hobj] at h
          exact absurd h (by simp)
      · rw [hnon2xx s d h2] at h
        exact absurd h (by simp)
    · rintro ⟨hs, hobj⟩
      exact hok s d (by omega) hobj hs
  · intro s d
    constructor
    · intro h
      by_cases h2 : 200 ≤ s ∧ s < 300
      · exact h2
      · rw [toknon2xx s d h2] at h
        exact absurd h (by simp)
    · intro h2
      exact tok2xx s d h2
  · intro o
    match o with
    | .networkError m => exact Or.inr ⟨_, hnet m, prefixed_msg_ne_empty _ _ (by decide)⟩
    | .response s d =>
      by_cases h2 : 200 ≤ s ∧ s < 300
      · by_cases hobj : (truthy d && typeofObject d) = true
        · by_cases hs : s = 200 ∨ s = 201
          · exact Or.inl (hok s d h2 hobj hs)
          · exact Or.inr ⟨_, h2xxfail s d h2 hobj hs, prefixed_msg_ne_empty _ _ (by decide)⟩
        · exact Or.inr ⟨_, hbad s d h2 hobj, by decide⟩
      · exact Or.inr ⟨_, hnon2xx s d h2, prefixed_msg_ne_empty _ _ (by decide)⟩
  · intro o
    match o with
    | .networkError m => exact Or.inr ⟨_, toknet m, prefixed_msg_ne_empty _ _ (by decide)⟩
    | .response s d =>
      by_cases h2 : 200 ≤ s ∧ s < 300
      · exact Or.inl (tok2xx s d h2)
      · exact Or.inr ⟨_, toknon2xx s d h2, prefixed_msg_ne_empty _ _ (by decide)⟩

/-- Concrete instances of the success status determination. -/
theorem capture_success_statuses_witness :
    captureTransaction "sk" "TXN12345" 100 (.response 201 (.obj [])) = .ok true ∧
    tokenCaptureTransaction .null "TXN12345" 100 (.response 299 (.obj [])) = .ok true ∧
    (captureTransaction "sk" "TXN12345" 100 (.networkError "timeout") = .ok true ∨
      ∃ e, captureTransaction "sk" "TXN12345" 100 (.networkError "timeout") = .error e ∧
        e ≠ "") := by
  have h := capture_success_statuses "sk" "TXN12345" 100 .null (by decide) (by decide)
    (by norm_num)
  exact ⟨(h.1 201 (.obj [])).mpr ⟨Or.inr rfl, by rfl⟩,
    (h.2.1 299 (.obj [])).mpr ⟨by omega, by omega⟩,
    h.2.2.1 (.networkError "timeout")⟩

/-- C5 counterexample: on a 2xx-but-not-200/201 response whose body carries
both a `detail` and a `message` field, the strict revision reports the
`message` field, not the `detail` field the claim says takes priority. -/
theorem failure_message_not_detail_first :
    captureTransaction "sk" "TXN12345" 100
        (.response 204 (.obj [("detail", .str "detail-text"), ("message", .str "message-text")])) =
      .error "Paymob Capture Request Failed: Paymob Capture Failed: message-text" ∧
    captureTransaction "sk" "TXN12345" 100
        (.response 204 (.obj [("detail", .str "detail-text"), ("message", .str "message-text")])) ≠
      .error "Paymob Capture Request Failed: Paymob Capture Failed: detail-text" := by
  constructor
  · rfl
  · intro h
    have := congrArg (fun r : Except String Bool =>
      match r with | .error e => e | .ok _ => "") h
    simp only at this
    exact absurd (congrArg String.length this) (by decide)

/-- C5 amended: the message the strict revision reports for a gateway
failure is, for a 2xx-but-not-200/201 response with an object body, built
from the `message` field first, then `detail`, then the fixed fallback; for
every non-2xx response and every transport failure it is one of the fixed
generic interceptor strings; it therefore depends only on the `message` and
`detail` fields and the shape of the body, never on the rest of the raw
upstream body.  The token revision catch chain does prefer `detail` over
`message`. -/
theorem failure_message_extraction (sk tid : String) (amt : ℚ) (tok : Json)
    (hsk : sk ≠ "") (htid : tid ≠ "") (hamt : 0 < amt) :
    (∀ (s : Nat) (d : Json), 200 ≤ s ∧ s < 300 → ¬ (s = 200 ∨ s = 201) →
      (truthy d && typeofObject d) = true →
      captureTransaction sk tid amt (.response s d) =
        .error ("Paymob Capture Request Failed: Paymob Capture Failed: " ++
          jsToString (jsOr (getField d "message") (jsOr (getField d "detail")
            (.str "Capture failed"))))) ∧
    (∀ (s : Nat) (d : Json), ¬ (200 ≤ s ∧ s < 300) →
      captureTransaction sk tid amt (.response s d) =
        .error ("Paymob Capture Request Failed: " ++ interceptorErrMsg (some s))) ∧
    (∀ m, captureTransaction sk tid amt (.networkError m) =
        .error ("Paymob Capture Request Failed: " ++ interceptorErrMsg none)) ∧
    (∀ (s : Nat) (d d' : Json),
      getField d "message" = getField d' "message" →
      getField d "detail" = getField d' "detail" →
      (truthy d && typeofObject d) = (truthy d' && typeofObject d') →
      captureTransaction sk tid amt (.response s d) =
        captureTransaction sk tid amt (.response s d')) ∧
    (∀ (s : Nat) (d : Json), ¬ (200 ≤ s ∧ s < 300) →
      tokenCaptureTransaction tok tid amt (.response s d) =
        .error ("Paymob Capture Request Failed: " ++
          jsToString (jsOr (getField d "detail") (jsOr (getField d "message")
            (.str ("Request failed with status code " ++ toString s)))))) := by
  obtain ⟨hnon2xx, hnet, hbad, hok, h2xxfail⟩ := captureTransaction_cases sk tid amt hsk htid hamt
  obtain ⟨tok2xx, toknon2xx, toknet⟩ := tokenCaptureTransaction_cases tok tid amt htid hamt
  refine ⟨?_, hnon2xx, hnet, ?_, toknon2xx⟩
  · intro s d h2 hs hobj
    exact h2xxfail s d h2 hobj hs
  · intro s d d' hmsg hdet hshape
    by_cases h2 : 200 ≤ s ∧ s < 300
    · by_cases hobj : (truthy d && typeofObject d) = true
      · have hobj' : (truthy d' && typeofObject d') = true := by rw [← hshape]; exact hobj
        by_cases hs : s = 200 ∨ s = 201
        · rw [hok s d h2 hobj hs, hok s d' h2 hobj' hs]
        · rw [h2xxfail s d h2 hobj hs, h2xxfail s d' h2 hobj' hs, hmsg, hdet]
      · have hobj' : ¬ (truthy d' && typeofObject d') = true := by rw [← hshape]; exact hobj
        rw [hbad s d h2 hobj, hbad s d' h2 hobj']
    · rw [hnon2xx s d h2, hnon2xx s d' h2]

/-- Concrete instances of the failure message extraction. -/
theorem failure_message_extraction_witness :
    captureTransaction "sk" "TXN12345" 100 (.response 503 (.obj [("detail", .str "secret")])) =
      .error "Paymob Capture Request Failed: Capture service unavailable" ∧
    tokenCaptureTransaction .null "TXN12345" 100
        (.response 400 (.obj [("detail", .str "detail-text"), ("message", .str "message-text")])) =
      .error "Paymob Capture Request Failed: detail-text" := by
  have h := failure_message_extraction "sk" "TXN12345" 100 .null (by decide) (by decide)
    (by norm_num)
  constructor
  · have := h.2.1 503 (.obj [("detail", .str "secret")]) (by omega)
    rw [this]
    rfl
  · have := h.2.2.2.2 400 (.obj [("detail", .str "detail-text"), ("message", .str "message-text")])
      (by omega)
    rw [this]
    rfl

/-- C1: the strict handler checks its five gates in order -- method, rate
limit, body size, credential, body parse and validation -- short-circuiting
on the first failure with 405, 429, 413, 500 and 400 respectively, each with
a success false body; a later gate responds only when every earlier gate
passed. -/
theorem strict_handler_gates (env : StrictEnv) (req : Req) (st : RateStore) (now : Int) :
    (req.method ≠ "POST" →
      strictHandler env req st now =
        (⟨405, ⟨false, some "Method not allowed", none⟩⟩, st)) ∧
    (req.method = "POST" →
      (checkRateLimit st (clientIdOf req.xForwardedFor req.xRealIp) now).1 = false →
      strictHandler env req st now =
        (⟨429, ⟨false, some "Too many capture requests", none⟩⟩,
          (checkRateLimit st (clientIdOf req.xForwardedFor req.xRealIp) now).2)) ∧
    (∀ b : String, req.method = "POST" →
      (checkRateLimit st (clientIdOf req.xForwardedFor req.xRealIp) now).1 = true →
      req.body = some b →
      stringifiedByteLength b > MAX_REQUEST_SIZE →
      strictHandler env req st now =
        (⟨413, ⟨false, some "Request too large", none⟩⟩,
          (checkRateLimit st (clientIdOf req.xForwardedFor req.xRealIp) now).2)) ∧
    (∀ b : String, req.method = "POST" →
      (checkRateLimit st (clientIdOf req.xForwardedFor req.xRealIp) now).1 = true →
      req.body = some b →
      stringifiedByteLength b ≤ MAX_REQUEST_SIZE →
      ¬ truthyEnv env.secretKey →
      strictHandler env req st now =
        (⟨500, ⟨false, some "Server configuration error.", none⟩⟩,
          (checkRateLimit st (clientIdOf req.xForwardedFor req.xRealIp) now).2)) ∧
    (∀ (b : String) (m : String), req.method = "POST" →
      (checkRateLimit st (clientIdOf req.xForwardedFor req.xRealIp) now).1 = true →
      req.body = some b →
      stringifiedByteLength b ≤ MAX_REQUEST_SIZE →
      truthyEnv env.secretKey →
      parseAndValidate env.parse b = .error m →
      strictHandler env req st now =
        (⟨400, ⟨false, some "Invalid request body", none⟩⟩,
          (checkRateLimit st (clientIdOf req.xForwardedFor req.xRealIp) now).2)) := by
  refine ⟨?_, ?_, ?_, ?_, ?_⟩
  · intro hm
    simp [strictHandler, strictHandlerTry, hm]
  · intro hm hr
    simp [strictHandler, strictHandlerTry, hm, hr]
  · intro b hm hr hb hsz
    simp [strictHandler, strictHandlerTry, hm, hr, hb, hsz]
  · intro b hm hr hb hsz hsec
    simp [strictHandler, strictHandlerTry, hm, hr, hb, hsec, not_lt.mpr hsz]
  · intro b m hm hr hb hsz hsec hp
    simp [strictHandler, strictHandlerTry, hm, hr, hb, hsec, not_lt.mpr hsz, hp]

/-- Concrete instances of the five gates, one failing request per gate. -/
theorem strict_handler_gates_witness :
    strictHandler ⟨some "sk", "rid", fun _ => .error "bad json", .networkError "x"⟩
        ⟨"GET", none, none, some "{}"⟩ emptyStore 0 =
      (⟨405, ⟨false, some "Method not allowed", none⟩⟩, emptyStore) ∧
    strictHandler ⟨none, "rid", fun _ => .error "bad json", .networkError "x"⟩
        ⟨"POST", none, none, some "{}"⟩ emptyStore 0 =
      (⟨500, ⟨false, some "Server configuration error.", none⟩⟩,
        (checkRateLimit emptyStore "unknown" 0).2) ∧
    strictHandler ⟨some "sk", "rid", fun _ => .error "bad json", .networkError "x"⟩
        ⟨"POST", none, none, some "{}"⟩ emptyStore 0 =
      (⟨400, ⟨false, some "Invalid request body", none⟩⟩,
        (checkRateLimit emptyStore "unknown" 0).2) := by
  have h1 := strict_handler_gates
    ⟨some "sk", "rid", fun _ => .error "bad json", .networkError "x"⟩
    ⟨"GET", none, none, some "{}"⟩ emptyStore 0
  have h2 := strict_handler_gates
    ⟨none, "rid", fun _ => .error "bad json", .networkError "x"⟩
    ⟨"POST", none, none, some "{}"⟩ emptyStore 0
  have h3 := strict_handler_gates
    ⟨some "sk", "rid", fun _ => .error "bad json", .networkError "x"⟩
    ⟨"POST", none, none, some "{}"⟩ emptyStore 0
  refine ⟨h1.1 (by decide), ?_, ?_⟩
  · exact h2.2.2.2.1 "{}" rfl (by decide) rfl (by decide) (by decide)
  · exact h3.2.2.2.2 "{}" "bad json" rfl (by decide) rfl (by decide) (by decide) rfl

/-- C8: every fault escaping the inner gates is caught by the outermost
try and answered with status 500 and body success false, error
`Server error` (plus the correlation identifier); and every invocation of
the handler returns one of the defined response statuses, so no fault ever
propagates to the caller. -/
theorem strict_handler_outer_catch (env : StrictEnv) (req : Req) (st : RateStore) (now : Int) :
    (∀ (f : Fault) (st1 : RateStore),
      strictHandlerTry env req st now = .error (f, st1) →
      strictHandler env req st now =
        (⟨500, ⟨false, some "Server error", some env.requestId⟩⟩, st1)) ∧
    (strictHandler env req st now).1.status ∈ ([200, 400, 405, 413, 429, 500] : List Nat) := by
  constructor
  · intro f st1 h
    simp only [strictHandler, h]
  · have haux : ∀ res, strictHandlerTry env req st now = .ok res →
        res.1.status ∈ ([200, 400, 405, 413, 429, 500] : List Nat) := by
      intro res h
      simp only [strictHandlerTry] at h
      by_cases hm : req.method ≠ "POST"
      · rw [if_pos hm] at h
        simp only [Except.ok.injEq] at h
        rw [← h]
        simp
      · rw [if_neg hm] at h
        by_cases hr : ¬ (checkRateLimit st (clientIdOf req.xForwardedFor req.xRealIp) now).1
        · rw [if_pos hr] at h
          simp only [Except.ok.injEq] at h
          rw [← h]
          simp
        · rw [if_neg hr] at h
          cases hb : req.body with
          | none =>
            rw [hb] at h
            exact absurd h (by simp)
          | some b =>
            rw [hb] at h
            dsimp only at h
            by_cases hsz : stringifiedByteLength b > MAX_REQUEST_SIZE
            · rw [if_pos hsz] at h
              simp only [Except.ok.injEq] at h
              rw [← h]
              simp
            · rw [if_neg hsz] at h
              by_cases hsec : ¬ truthyEnv env.secretKey
              · rw [if_pos hsec] at h
                simp only [Except.ok.injEq] at h
                rw [← h]
                simp
              · rw [if_neg hsec] at h
                cases hp : parseAndValidate env.parse b with
                | error m =>
                  rw [hp] at h
                  simp only [Except.ok.injEq] at h
                  rw [← h]
                  simp
                | ok v =>
                  obtain ⟨tid, amt⟩ := v
                  rw [hp] at h
                  dsimp only at h
                  cases hc : captureTransaction (env.secretKey.getD "") tid amt
                      env.captureOutcome with
                  | ok u =>
                    rw [hc] at h
                    simp only [Except.ok.injEq] at h
                    rw [← h]
                    simp
                  | error e =>
                    rw [hc] at h
                    simp only [Except.ok.injEq] at h
                    rw [← h]
                    simp
    cases hout : strictHandlerTry env req st now with
    | ok res =>
      simp only [strictHandler, hout]
      exact haux res hout
    | error p =>
      simp only [strictHandler, hout]
      simp

/-- Concrete instance of the outer catch: an undefined request body makes
`Buffer.byteLength(JSON.stringify(req.body))` throw after the first two
gates, and the handler answers with the generic 500 server error. -/
theorem strict_handler_outer_catch_witness :
    (strictHandler ⟨some "sk", "rid", fun _ => .error "bad json", .networkError "x"⟩
        ⟨"POST", none, none, none⟩ emptyStore 0).1 =
      ⟨500, ⟨false, some "Server error", some "rid"⟩⟩ := by
  have h := (strict_handler_outer_catch
    ⟨some "sk", "rid", fun _ => .error "bad json", .networkError "x"⟩
    ⟨"POST", none, none, none⟩ emptyStore 0).1 .byteLengthOfUndefined
    (checkRateLimit emptyStore "unknown" 0).2 rfl
  rw [h]

/-- Two strict capture calls with different nonempty secrets agree. -/
theorem captureTransaction_secret_irrel (sk1 sk2 : String) (tid : String) (amt : ℚ)
    (o : HttpOutcome) (h1 : sk1 ≠ "") (h2 : sk2 ≠ "") :
    captureTransaction sk1 tid amt o = captureTransaction sk2 tid amt o := by
  simp only [captureTransaction, if_neg h1, if_neg h2]

/-- C9: for any two nonempty credential values and otherwise identical
request, parse behaviour and gateway behaviour, the strict handler produces
identical responses: the credential neither appears in nor influences any
response body. -/
theorem strict_handler_secret_noninterference (sk1 sk2 : String)
    (h1 : sk1 ≠ "") (h2 : sk2 ≠ "") (requestId : String)
    (parse : String → Except String Json) (o : HttpOutcome)
    (req : Req) (st : RateStore) (now : Int) :
    strictHandler ⟨some sk1, requestId, parse, o⟩ req st now =
      strictHandler ⟨some sk2, requestId, parse, o⟩ req st now := by
  have htry : strictHandlerTry ⟨some sk1, requestId, parse, o⟩ req st now =
      strictHandlerTry ⟨some sk2, requestId, parse, o⟩ req st now := by
    simp only [strictHandlerTry]
    by_cases hm : req.method ≠ "POST"
    · rw [if_pos hm, if_pos hm]
    · rw [if_neg hm, if_neg hm]
      by_cases hr : ¬ (checkRateLimit st (clientIdOf req.xForwardedFor req.xRealIp) now).1
      · rw [if_pos hr, if_pos hr]
      · rw [if_neg hr, if_neg hr]
        cases hb : req.body with
        | none => rfl
        | some b =>
          dsimp only
          by_cases hsz : stringifiedByteLength b > MAX_REQUEST_SIZE
          · rw [if_pos hsz, if_pos hsz]
          · rw [if_neg hsz, if_neg hsz]
            have ht1 : truthyEnv (some sk1) = true := by simp [truthyEnv, h1]
            have ht2 : truthyEnv (some sk2) = true := by simp [truthyEnv, h2]
            rw [if_neg (by simp [ht1]), if_neg (by simp [ht2])]
            cases hp : parseAndValidate parse b with
            | error m => rfl
            | ok v =>
              have hcap := captureTransaction_secret_irrel sk1 sk2 v.1 v.2 o h1 h2
              simp only [Option.getD_some]
              rw [hcap]
  simp only [strictHandler, htry]

/-- Concrete instance of the credential noninterference at two secrets. -/
theorem strict_handler_secret_noninterference_witness :
    strictHandler ⟨some "secret-a", "rid", fun _ => .error "bad json", .networkError "x"⟩
        ⟨"POST", none, none, some "{}"⟩ emptyStore 0 =
      strictHandler ⟨some "secret-b", "rid", fun _ => .error "bad json", .networkError "x"⟩
        ⟨"POST", none, none, some "{}"⟩ emptyStore 0 :=
  strict_handler_secret_noninterference "secret-a" "secret-b" (by decide) (by decide)
    "rid" (fun _ => .error "bad json") (.networkError "x")
    ⟨"POST", none, none, some "{}"⟩ emptyStore 0

/-- C10: in the loose (major-unit) revision, a strictly positive amount
below 0.005 passes body validation, `Math.round(amount * 100)` collapses it
to 0 piasters, the gateway client rejects it before any network call (the
result does not depend on the capture outcome), and the handler answers 500
with success false instead of a 400 validation error. -/
theorem loose_handler_subpiaster_amount (k b tid : String) (bodyData : Json) (q : ℚ)
    (parse : String → Except String Json) (authOutcome captureOutcome : HttpOutcome)
    (hk : k ≠ "") (hb : b ≠ "") (hparse : parse b = .ok bodyData)
    (htid : getField bodyData "transactionId" = .str tid) (htidne : tid ≠ "")
    (hamt : getField bodyData "amount" = .num (.finite q))
    (hq : 0 < q) (hsmall : q < 1/200)
    (hauth : truthy (looseGetAuthToken (some k) authOutcome) = true) :
    jsRound (jsMulConst (.finite q) 100) = .finite 0 ∧
    looseCaptureTransaction (looseGetAuthToken (some k) authOutcome) (.str tid)
      (jsRound (jsMulConst (.finite q) 100)) captureOutcome = false ∧
    looseHandler ⟨some k, parse, authOutcome, captureOutcome⟩ (some b) =
      ⟨500, ⟨false, some "Paymob capture API call failed.", none⟩⟩ := by
  have hround : jsRound (jsMulConst (.finite q) 100) = .finite 0 := by
    simp only [jsMulConst, jsRound, JsNumber.finite.injEq]
    have hfloor : ⌊q * 100 + 1/2⌋ = 0 := by
      rw [Int.floor_eq_zero_iff]
      simp only [Set.mem_Ico]
      constructor
      · positivity
      · linarith
    rw [hfloor]
    norm_num
  have hcap : looseCaptureTransaction (looseGetAuthToken (some k) authOutcome) (.str tid)
      (JsNumber.finite 0) captureOutcome = false := by
    simp [looseCaptureTransaction, truthy]
  have hpv : looseParseAndValidate parse (some b) = .ok (.str tid, .finite q) := by
    simp only [looseParseAndValidate, if_neg hb, hparse, htid, hamt]
    rw [if_neg (by simp [truthy, htidne])]
    rw [if_neg (by simp [jsLeConst, not_le.mpr hq])]
  refine ⟨hround, hround ▸ hcap, ?_⟩
  simp only [looseHandler]
  rw [if_neg (by simp [truthyEnv, hk]), hpv]
  dsimp only
  rw [hround, if_neg (by simp [hauth]), if_pos (by simp [hcap])]

/-- Concrete instance: amount 0.001 major units is validated, rounds to 0
piasters, and yields the 500 capture flow failure for any gateway
behaviour. -/
theorem loose_handler_subpiaster_amount_witness :
    jsRound (jsMulConst (.finite (1/1000)) 100) = .finite 0 ∧
    looseHandler
        ⟨some "api-key",
          fun _ => .ok (.obj [("transactionId", .str "TXN12345"),
            ("amount", .num (.finite (1/1000)))]),
          .response 200 (.obj [("token", .str "tok")]), .networkError "unused"⟩
        (some "body") =
      ⟨500, ⟨false, some "Paymob capture API call failed.", none⟩⟩ := by
  have h := loose_handler_subpiaster_amount "api-key" "body" "TXN12345"
    (.obj [("transactionId", .str "TXN12345"), ("amount", .num (.finite (1/1000)))])
    (1/1000)
    (fun _ => .ok (.obj [("transactionId", .str "TXN12345"),
      ("amount", .num (.finite (1/1000)))]))
    (.response 200 (.obj [("token", .str "tok")])) (.networkError "unused")
    (by decide) (by decide) rfl rfl (by decide) rfl (by norm_num) (by norm_num) (by rfl)
  exact ⟨h.1, h.2.2⟩

end Paymob
